import Mathlib

set_option maxRecDepth 8000
set_option linter.unnecessarySeqFocus false

/- Shallow embedding of the portal-client subsystem: the Python sources
   caskan_client.py and estama_client.py, plus the text-shaping code of
   bot.py. Python exceptions are modeled by the Except monad over a
   message string, Python str by String, or by List Char where
   character-level slicing matters, and the network layer by an oracle
   record holding the outcome of each request the client can issue. -/

abbrev PyExc := String

/-- Contiguous-sublist test on character lists. -/
def infixB (p : List Char) : List Char → Bool
  | [] => p.isEmpty
  | c :: rest => p.isPrefixOf (c :: rest) || infixB p rest

/-- Python substring test, the in operator on str. -/
def pyIn (needle hay : String) : Bool := infixB needle.data hay.data

/-- Result of one HTTP request: status code, final URL and the Location header
(headers.get of Location with default empty). -/
structure Resp where
  status : Nat
  url : String
  location : String
deriving DecidableEq

/-- Labels for the network requests issued by the login and probe code,
used to state which requests an operation did or did not issue. -/
inductive ReqTag where
  | step1 | step2 | probeA | loginPageGet | loginPost | probeB
deriving DecidableEq

/-- Python try/except: run the body; on an exception run the handler. -/
def pyTry (body : Except PyExc α) (handler : PyExc → Except PyExc α) : Except PyExc α :=
  match body with
  | .ok v => .ok v
  | .error e => handler e

/- Date arithmetic backing the datetime and calendar module calls. -/

/-- Leap-year rule of the Python calendar module. -/
def isLeap (y : Nat) : Bool := y % 4 == 0 && (y % 100 != 0 || y % 400 == 0)

/-- Day counts per month as in calendar.mdays, index 0 unused. -/
def mdays : List Nat := [0, 31, 28, 31, 30, 31, 30, 31, 31, 30, 31, 30, 31]

/-- Length of a month, calendar.monthrange(y, m)[1]. -/
def daysInMonth (y m : Nat) : Nat :=
  mdays.getD m 0 + (if m = 2 ∧ isLeap y then 1 else 0)

/-- Days in the proleptic Gregorian calendar before January 1 of year y. -/
def daysBeforeYear (y : Nat) : Nat :=
  365 * (y - 1) + (y - 1) / 4 - (y - 1) / 100 + (y - 1) / 400

/-- Days of year y before the first day of month m. -/
def daysBeforeMonth (y m : Nat) : Nat :=
  ((List.range' 1 (m - 1)).map (daysInMonth y)).sum

/-- Ordinal of a date, date.toordinal in Python, with 0001-01-01 as 1. -/
def dateOrdinal (y m d : Nat) : Nat := daysBeforeYear y + daysBeforeMonth y m + d

/-- Python date.weekday: Monday is 0; 0001-01-01 is a Monday. -/
def pyWeekday (y m d : Nat) : Nat := (dateOrdinal y m d - 1) % 7

/-- Weekday labels used by the monthly aggregator, indexed by date.weekday(). -/
def weekday_names : List String := ["月", "火", "水", "木", "金", "土", "日"]

/-- Label picked for a day record by the aggregator. -/
def weekdayLabel (y m d : Nat) : String := weekday_names.getD (pyWeekday y m d) ""

/-- Two-digit zero padding, the m and d fields of strftime. -/
def pad2 (n : Nat) : String := if n < 10 then "0" ++ toString n else toString n

/-- Four-digit zero padding, the Y field of strftime. -/
def pad4 (n : Nat) : String :=
  if n < 10 then "000" ++ toString n
  else if n < 100 then "00" ++ toString n
  else if n < 1000 then "0" ++ toString n
  else toString n

/-- strftime with the pattern Y-m-d. -/
def isoDate (y m d : Nat) : String := pad4 y ++ "-" ++ pad2 m ++ "-" ++ pad2 d

/-- Split a character list at every occurrence of a separator character,
mirroring the str.split semantics used on single-character separators. -/
def splitOnChar (sep : Char) : List Char → List (List Char)
  | [] => [[]]
  | c :: rest =>
    if c = sep then [] :: splitOnChar sep rest
    else
      match splitOnChar sep rest with
      | [] => [[c]]
      | l :: ls => (c :: l) :: ls

/-- Digit check used by the strptime model. -/
def allDigits (l : List Char) : Bool := !l.isEmpty && l.all Char.isDigit

/-- Decimal value of a digit list. -/
def charsToNat (l : List Char) : Nat := l.foldl (fun n c => 10 * n + (c.toNat - 48)) 0

/-- Model of datetime.strptime(s, the Y-m-d pattern) followed by .date():
the year field is exactly four digits, month and day are one or two digits,
and the date constructor validates the ranges; none stands for the
ValueError that the source catches. -/
def parseIsoDate (s : String) : Option (Nat × Nat × Nat) :=
  match splitOnChar '-' s.data with
  | [ys, ms, ds] =>
    if ys.length = 4 && allDigits ys && allDigits ms && ms.length ≤ 2
        && allDigits ds && ds.length ≤ 2 then
      let y := charsToNat ys
      let m := charsToNat ms
      let d := charsToNat ds
      if 1 ≤ y && y ≤ 9999 && 1 ≤ m && m ≤ 12 && 1 ≤ d && d ≤ daysInMonth y m then
        some (y, m, d)
      else none
    else none
  | _ => none

/- Portal Client A: caskan_client.py. -/

/-- Mutable client state of CaskanClient: the login flag. -/
structure CasSt where
  logged_in : Bool
deriving DecidableEq

/-- One shift occurrence of the monthly aggregate. -/
structure ShiftEntry where
  name : String
  time : String
  room_id : String
  room_name : String
deriving DecidableEq

/-- One calendar day of the monthly aggregate. -/
structure DayRecord where
  weekday : String
  shifts : List ShiftEntry
  rooms_used : List String
deriving DecidableEq

/-- The success shape of get_monthly_shift. -/
structure MonthlyShift where
  year : Nat
  month : Nat
  room_map : List (String × String)
  days : List (String × DayRecord)
deriving DecidableEq

/-- Result of get_monthly_shift: the success dict or the error dict. -/
inductive MonthlyResult where
  | err : String → MonthlyResult
  | ok : MonthlyShift → MonthlyResult
deriving DecidableEq

/-- Span with the data-room-id attribute inside a shift cell: the room id
attribute value and the optional data-day attribute. -/
structure EditSpan where
  room_id : String
  data_day : Option String
deriving DecidableEq

/-- Content of the first td of a shift-table row: div texts and the
optional edit span. -/
structure CastRowTd where
  divs : List String
  edit_span : Option EditSpan
deriving DecidableEq

/-- One tr of a parts-cast-table, with its optional first td. -/
structure CastRow where
  td : Option CastRowTd
deriving DecidableEq

/-- One input tag matched by the sort-prefixed name pattern on the room
page: its value attribute, and the optional parent tr with the text of an
anchor pointing at the room view, where present. -/
structure RoomInput where
  value : Option String
  tr : Option (Option String)
deriving DecidableEq

/-- One anchor inside a cast-list row. -/
structure CastLink where
  href : String
  text : String
deriving DecidableEq

/-- One tr of the cast page: its anchors and its whole-row text. -/
structure CastListRow where
  links : List CastLink
  row_text : String
deriving DecidableEq

/-- Sales figures scraped from the home page by label adjacency; a label
never matched leaves its key absent from the sales dict, modeled as none. -/
structure SalesMap where
  today : Option String
  yesterday : Option String
  this_month : Option String
  last_month : Option String
deriving DecidableEq

/-- The success shape of get_home_info. -/
structure HomeInfo where
  sales : SalesMap
  attendance_text : String
  guidance_text : String
deriving DecidableEq

/-- The home page as get_home_info reads it: the page text split into
lines, and the stripped text content of every textarea in order. -/
structure HomePage where
  text_lines : List String
  textareas : List String
deriving DecidableEq

/-- Network oracle for CaskanClient: the outcome of every request the
client can issue, pages given in the already-parsed form the scraping
code reads off them. An error value models a raised requests exception. -/
structure CaskanNet where
  step1 : Except PyExc Resp
  step2 : Except PyExc Resp
  probe : Except PyExc Resp
  roomPage : Except PyExc (List RoomInput)
  weekPage : String → Except PyExc (List (List CastRow))
  castPage : Except PyExc (List CastListRow)
  resvPage : Except PyExc (List (List (List String)))
  homePage : Except PyExc HomePage
  schedulePage : Except PyExc (List Char)

namespace CaskanClient

/-- login: the two-step form login. Step one fails on a non-200 status;
step two is judged only by whether the final URL still contains the login
path. Any exception is caught and yields false. The trace lists the
requests issued. -/
def login (net : CaskanNet) (st : CasSt) : Bool × CasSt × List ReqTag :=
  match net.step1 with
  | .error _ => (false, st, [.step1])
  | .ok r1 =>
    if r1.status ≠ 200 then (false, st, [.step1])
    else
      match net.step2 with
      | .error _ => (false, st, [.step1, .step2])
      | .ok r2 =>
        if pyIn "/login" r2.url then (false, st, [.step1, .step2])
        else (true, { st with logged_in := true }, [.step1, .step2])

/-- The session-expiry check: when not logged in, delegate to login;
otherwise probe the home page without following redirects, re-login on a
redirect to the login path, and swallow any probe exception. -/
def ensure_login (net : CaskanNet) (st : CasSt) : Bool × CasSt × List ReqTag :=
  if !st.logged_in then login net st
  else
    match net.probe with
    | .error _ => (true, st, [.probeA])
    | .ok r =>
      if (r.status == 301 || r.status == 302) && pyIn "/login" r.location then
        let res := login net { st with logged_in := false }
        (res.1, res.2.1, .probeA :: res.2.2)
      else (true, st, [.probeA])

/-- Python dict insertion: replace the value at an existing key in place,
else append the pair. -/
def dictInsert (d : List (String × String)) (k v : String) : List (String × String) :=
  if d.any (fun p => p.1 == k) then d.map (fun p => if p.1 == k then (k, v) else p)
  else d ++ [(k, v)]

/-- Splitting on runs of whitespace, str.split with no argument. -/
def pySplitWs (s : String) : List String :=
  ((splitOnChar ' ' s.data).filter (fun l => !l.isEmpty)).map (fun l => String.mk l)

/-- Body of the room-map extraction: for each matched input take its value
as the room id, and where the parent tr holds a room-view anchor take the
first whitespace-separated word of the anchor text as the name; an anchor
with blank text makes the word list empty and index 0 raise. -/
def roomMapRows (inputs : List RoomInput) : Except PyExc (List (String × String)) :=
  inputs.foldlM
    (fun acc inp =>
      let room_id := inp.value.getD ""
      match inp.tr with
      | none => pure acc
      | some tr =>
        match tr with
        | none => pure acc
        | some linkText =>
          match pySplitWs linkText with
          | [] => throw "IndexError: list index out of range"
          | w :: _ => pure (dictInsert acc room_id w))
    []

/-- get_room_map: ensure the session, fetch the room page and extract the
id-to-name map; any exception yields the empty map. -/
def get_room_map (net : CaskanNet) (st : CasSt) : List (String × String) × CasSt :=
  let ens := ensure_login net st
  if !ens.1 then ([], ens.2.1)
  else
    let st1 := ens.2.1
    match pyTry (net.roomPage >>= roomMapRows) (fun _ => .ok []) with
    | .ok m => (m, st1)
    | .error _ => ([], st1)

/-- Shift entry parsed from one row of a parts-cast-table, none where the
source hits a continue: no td, no edit span, blank day or name, a day
string strptime rejects, or a day outside the target month. -/
def weekRowEntry (roomMap : List (String × String)) (y m : Nat) (row : CastRow) :
    Option (String × ShiftEntry) :=
  match row.td with
  | none => none
  | some td =>
    let name := td.divs.headD ""
    let time := td.divs.getD 1 ""
    match td.edit_span with
    | none => none
    | some sp =>
      let room_id := sp.room_id
      let day_str := sp.data_day.getD ""
      if day_str = "" ∨ name = "" then none
      else
        match parseIsoDate day_str with
        | none => none
        | some (yy, mm, _) =>
          if yy = y ∧ mm = m then
            some (day_str,
              { name := name, time := time, room_id := room_id,
                room_name := ((roomMap.lookup room_id).getD ("Room" ++ room_id)) })
          else none

/-- Append a shift under its day key, the dict-of-lists accumulation of
the source. -/
def addShift (A : String → List ShiftEntry) (k : String) (e : ShiftEntry) :
    String → List ShiftEntry :=
  fun q => if q = k then A q ++ [e] else A q

/-- Fold every row of every cast table of one weekly page into the
day-keyed accumulator. -/
def foldWeekRows (roomMap : List (String × String)) (y m : Nat)
    (A : String → List ShiftEntry) (tables : List (List CastRow)) :
    String → List ShiftEntry :=
  tables.foldl
    (fun A rows =>
      rows.foldl
        (fun A row =>
          match weekRowEntry roomMap y m row with
          | none => A
          | some (k, e) => addShift A k e)
        A)
    A

/-- The weekly while loop of get_monthly_shift: starting at day 1 and
stepping by 7 days while inside the month, fetch each weekly page and fold
its rows; the fuel argument carries the number of iterations the loop
performs, and a raised fetch exception aborts the whole accumulation. -/
def collectWeeks (net : CaskanNet) (roomMap : List (String × String)) (y m : Nat) :
    Nat → Nat → (String → List ShiftEntry) → Except PyExc (String → List ShiftEntry)
  | _, 0, A => .ok A
  | d, k + 1, A =>
    match net.weekPage (isoDate y m d) with
    | .error e => .error e
    | .ok tables => collectWeeks net roomMap y m (d + 7) k (foldWeekRows roomMap y m A tables)

/-- Number of weekly fetches the stride-7 loop performs over an n-day month. -/
def numWeeks (n : Nat) : Nat := (n + 6) / 7

/-- The record built for one day of the month. -/
def dayRec (y m : Nat) (A : String → List ShiftEntry) (d : Nat) : DayRecord :=
  let shifts := A (isoDate y m d)
  { weekday := weekdayLabel y m d,
    shifts := shifts,
    rooms_used := (shifts.map ShiftEntry.room_id).dedup }

/-- The day-filling while loop: one entry per day from day d for k days,
keyed by the strftime date string. -/
def fillDays (y m : Nat) (A : String → List ShiftEntry) : Nat → Nat → List (String × DayRecord)
  | _, 0 => []
  | d, k + 1 => (isoDate y m d, dayRec y m A d) :: fillDays y m A (d + 1) k

/-- get_monthly_shift: ensure the session, fetch the room map, build the
first and last day of the month (a ValueError on an invalid year or month
is caught into the error dict), accumulate the weekly pages, and fill
every date of the month; any exception yields the error dict. -/
def get_monthly_shift (net : CaskanNet) (st : CasSt) (y m : Nat) : MonthlyResult × CasSt :=
  let ens := ensure_login net st
  if !ens.1 then (.err "ログインに失敗しました", ens.2.1)
  else
    let st1 := ens.2.1
    let rm := get_room_map net st1
    let roomMap := rm.1
    let st2 := rm.2
    if 1 ≤ y ∧ y ≤ 9999 ∧ 1 ≤ m ∧ m ≤ 12 then
      let n := daysInMonth y m
      match collectWeeks net roomMap y m 1 (numWeeks n) (fun _ => []) with
      | .error e => (.err e, st2)
      | .ok A =>
        (.ok { year := y, month := m, room_map := roomMap, days := fillDays y m A 1 n }, st2)
    else (.err "ValueError: year or month is out of range", st2)

/-- Cast-list extraction: scan the anchors of every row, keep anchors
whose href holds the cast path with nonblank text that is not the edit
label and not seen yet, tagging each name with the publication status read
off the row text. -/
def castRows (rows : List CastListRow) : List String :=
  (rows.foldl
    (fun (acc : List String × List String) row =>
      row.links.foldl
        (fun (acc : List String × List String) link =>
          if pyIn "/cast/" link.href && link.text ≠ "" && !pyIn "編集" link.text
              && !acc.2.contains link.text then
            let status := if pyIn "掲載中" row.row_text then "掲載中" else "未掲載"
            (acc.1 ++ [link.text ++ " [" ++ status ++ "]"], acc.2 ++ [link.text])
          else acc)
        acc)
    ([], [])).1

/-- get_cast_list: ensure the session and parse the cast page; the
returned value is a plain list, and every exception is caught into the
empty list. The Except wrapper records that the call itself never raises. -/
def get_cast_list (net : CaskanNet) (st : CasSt) : Except PyExc (List String × CasSt) :=
  let ens := ensure_login net st
  if !ens.1 then .ok ([], ens.2.1)
  else
    let st1 := ens.2.1
    pyTry (net.castPage >>= fun rows => .ok (castRows rows, st1)) (fun _ => .ok ([], st1))

end CaskanClient

/- Shared text primitives used by both clients and the bot layer. -/

/-- Python str.strip on a character list: drop whitespace from both ends. -/
def pyStrip (s : List Char) : List Char :=
  ((s.dropWhile Char.isWhitespace).reverse.dropWhile Char.isWhitespace).reverse

/-- Python str.strip on String. -/
def pyStripS (s : String) : String := String.mk (pyStrip s.data)

/-- Python str.join. -/
def pyJoin (sep : String) : List String → String
  | [] => ""
  | c :: rest => rest.foldl (fun acc x => acc ++ sep ++ x) c

/-- The truncation pattern shared by the schedule and listing renderers:
text at or under the limit is kept, longer text is cut at the limit and
the marker is appended. -/
def truncatePy (limit : Nat) (marker : List Char) (t : List Char) : List Char :=
  if t.length ≤ limit then t else t.take limit ++ marker

/-- Character class of the native-script staff-name pattern shared by
both clients: hiragana, katakana and the unified kanji block. -/
def isJpChar (c : Char) : Bool :=
  (0x3040 ≤ c.toNat && c.toNat ≤ 0x309F) ||
  (0x30A0 ≤ c.toNat && c.toNat ≤ 0x30FF) ||
  (0x4E00 ≤ c.toNat && c.toNat ≤ 0x9FFF)

/-- The anchored all-native-script line pattern: one or more characters of
the three ranges spanning the whole line. -/
def jpOnly (l : List Char) : Bool := !l.isEmpty && l.all isJpChar

/-- Python str.lower on a character list. -/
def pyLower (s : List Char) : List Char := s.map Char.toLower

/-- Table-to-row-string extraction shared by both get_reservations
bodies: each tr with at least one cell is joined with the bar delimiter
and kept when nonblank after stripping. -/
def reservation_rows (tables : List (List (List String))) : List String :=
  tables.foldl
    (fun acc rows =>
      rows.foldl
        (fun acc cells =>
          if cells.isEmpty then acc
          else
            let row_text := pyJoin " | " cells
            if pyStripS row_text = "" then acc else acc ++ [row_text])
        acc)
    []

/-- The success shape of get_reservations. -/
structure ReservationsOk where
  reservations : List String
  count : Nat
deriving DecidableEq

namespace CaskanClient

/-- get_reservations: ensure the session, parse the reservation tables,
return the first twenty rows with the full count; an exception yields the
error dict. -/
def get_reservations (net : CaskanNet) (st : CasSt) :
    Except PyExc (Except String ReservationsOk × CasSt) :=
  let ens := ensure_login net st
  if !ens.1 then .ok (.error "ログインに失敗しました", ens.2.1)
  else
    let st1 := ens.2.1
    pyTry
      (net.resvPage >>= fun tables =>
        let rs := reservation_rows tables
        .ok (.ok { reservations := rs.take 20, count := rs.length }, st1))
      (fun e => .ok (.error e, st1))

end CaskanClient

/- Portal Client B: estama_client.py. -/

/-- Mutable client state of EstamaClient: login flag and stored CSRF token. -/
structure ESt where
  logged_in : Bool
  csrf : String
deriving DecidableEq

/-- The login page as the CSRF extractor reads it: none when no input
with the csrf id exists, some none when it exists without a value
attribute (reading it raises KeyError), some (some v) for its value. -/
structure CsrfPage where
  csrf_footer : Option (Option String)
deriving DecidableEq

/-- Response of the AJAX login post: status and the decoded JSON array,
none when resp.json() raises. -/
structure LoginResp where
  status : Nat
  json : Option (List String)
deriving DecidableEq

/-- One input of a form on the guidance page. -/
structure FormInput where
  name : Option String
  value : String
deriving DecidableEq

/-- One form on the guidance page. -/
structure Form where
  id : String
  inputs : List FormInput
deriving DecidableEq

/-- One anchor with the send-post class on the guidance page. -/
structure AppealLink where
  data_post : String
  text : String
  data_form : String
deriving DecidableEq

/-- The guidance page as click_appeal and get_guidance_status read it:
the rendered page text, the hidden CSRF input, the send-post anchors and
the forms. -/
structure GuidancePage where
  text : List Char
  csrf_footer : Option (Option String)
  appeal_links : List AppealLink
  forms : List Form
deriving DecidableEq

/-- One news entry; texts are character lists because the source slices
titles by character position. -/
structure NewsItem where
  title : List Char
  date : List Char
deriving DecidableEq

/-- The news page as get_news_list reads it: the td texts of every table
row, and the page text split into lines for the no-table fallback. -/
structure NewsPage where
  tables : List (List (List (List Char)))
  text_lines : List (List Char)
deriving DecidableEq

/-- The dashboard page as get_dashboard reads it: the page text split
into lines, and every anchor as an href and text pair. -/
structure DashPage where
  text_lines : List String
  links : List (String × String)
deriving DecidableEq

/-- The success shape of get_dashboard. -/
structure Dashboard where
  shop_name : String
  shop_number : String
  plan : String
  contract_period : String
  points : String
  notifications : List String
  menu_items : List String
deriving DecidableEq

/-- The success shape of get_guidance_status. -/
structure GuidanceStatus where
  status : String
  therapists : List String
deriving DecidableEq

/-- Network oracle for EstamaClient. -/
structure EstamaNet where
  loginPage : Except PyExc CsrfPage
  loginPost : Except PyExc LoginResp
  probe : Except PyExc Resp
  guidancePage : Except PyExc GuidancePage
  appealPost : Nat → List (String × String) → Except PyExc Resp
  appealGet : Except PyExc Resp
  newsPage : Except PyExc NewsPage
  resvPage : Except PyExc (List (List (List String)))
  schedulePage : Except PyExc (List Char)
  dashboardPage : Except PyExc DashPage

namespace EstamaClient

/-- The CSRF extraction against the fetched login page: a missing input or
any exception (also the KeyError of a value-less input) yields the empty
token. -/
def get_csrf_token (fetch : Except PyExc CsrfPage) : String :=
  match fetch with
  | .error _ => ""
  | .ok page =>
    match page.csrf_footer with
    | some (some v) => v
    | some none => ""
    | none => ""

/-- login: fetch the CSRF token and store it; an empty token fails before
any POST. Otherwise POST the serialized-array form; a 200 response whose
JSON array starts with a success sentinel marks the session logged in,
anything else fails, and every exception is caught into false. -/
def login (net : EstamaNet) (st : ESt) : Bool × ESt × List ReqTag :=
  let tok := get_csrf_token net.loginPage
  let st1 := { st with csrf := tok }
  if tok = "" then (false, st1, [.loginPageGet])
  else
    match net.loginPost with
    | .error _ => (false, st1, [.loginPageGet, .loginPost])
    | .ok r =>
      if r.status == 200 then
        match r.json with
        | none => (false, st1, [.loginPageGet, .loginPost])
        | some data =>
          match data.head? with
          | none => (false, st1, [.loginPageGet, .loginPost])
          | some d0 =>
            if d0 = "OK" ∨ d0 = "REDIRECT_OK" then
              (true, { st1 with logged_in := true }, [.loginPageGet, .loginPost])
            else (false, st1, [.loginPageGet, .loginPost])
      else (false, st1, [.loginPageGet, .loginPost])

/-- The session-expiry check of EstamaClient, same policy as Client A:
a probe exception is swallowed and the session is assumed alive. -/
def ensure_login (net : EstamaNet) (st : ESt) : Bool × ESt × List ReqTag :=
  if !st.logged_in then login net st
  else
    match net.probe with
    | .error _ => (true, st, [.probeB])
    | .ok r =>
      if (r.status == 301 || r.status == 302) && pyIn "/login" r.location then
        let res := login net { st with logged_in := false }
        (res.1, res.2.1, .probeB :: res.2.2)
      else (true, st, [.probeB])

/-- get_reservations of Client B, the same table-to-row extraction as
Client A against the portal-B page. -/
def get_reservations (net : EstamaNet) (st : ESt) :
    Except PyExc (Except String ReservationsOk × ESt) :=
  let ens := ensure_login net st
  if !ens.1 then .ok (.error "ログインに失敗しました", ens.2.1)
  else
    let st1 := ens.2.1
    pyTry
      (net.resvPage >>= fun tables =>
        let rs := reservation_rows tables
        .ok (.ok { reservations := rs.take 20, count := rs.length }, st1))
      (fun e => .ok (.error e, st1))

end EstamaClient

namespace EstamaClient

/-- Python dict update used while building the appeal POST payload:
replace the value at an existing key, else append. -/
def dictUpsert (d : List (String × String)) (k v : String) : List (String × String) :=
  if d.any (fun p => p.1 == k) then d.map (fun p => if p.1 == k then (k, v) else p)
  else d ++ [(k, v)]

/-- The appeal POST payload: the CSRF token, then for every named input of
the located form the constant serialized-array keys, each overwriting the
previous input as in the source. -/
def buildPostData (csrf : String) (form : Option Form) : List (String × String) :=
  match form with
  | none => [("ctk", csrf)]
  | some f =>
    f.inputs.foldl
      (fun d inp =>
        match inp.name with
        | none => d
        | some nm => dictUpsert (dictUpsert d "str[0][name]" nm) "str[0][value]" inp.value)
      [("ctk", csrf)]

/-- CSRF token as click_appeal reads it from the guidance page: the input
value where present, the stored token where the input is missing, and a
KeyError where the input lacks a value attribute. -/
def appealCsrf (page : GuidancePage) (st : ESt) : Except PyExc String :=
  match page.csrf_footer with
  | some (some v) => .ok v
  | some none => .error "KeyError: value"
  | none => .ok st.csrf

/-- The anchor loop of click_appeal: anchors whose action id or text marks
the appeal are POSTed in turn (the counter indexes the POSTs issued); the
first 200 response returns true, and when the anchors run out the
fallback GET decides. -/
def appealLoop (net : EstamaNet) (page : GuidancePage) (csrf : String) :
    Nat → List AppealLink → Except PyExc Bool
  | _, [] =>
    (match net.appealGet with
     | .error e => .error e
     | .ok r3 => .ok (r3.status == 200))
  | k, link :: rest =>
    if pyIn "appeal" (String.mk (link.data_post.data.map Char.toLower)) || pyIn "アピール" link.text then
      let form :=
        if link.data_form ≠ "" then page.forms.find? (fun f => f.id == "form-" ++ link.data_form)
        else none
      match net.appealPost k (buildPostData csrf form) with
      | .error e => .error e
      | .ok r2 => if r2.status == 200 then .ok true else appealLoop net page csrf (k + 1) rest
    else appealLoop net page csrf k rest

/-- click_appeal: ensure the session, read the guidance page, run the
anchor loop and the fallback; every exception is caught into false. The
Except wrapper records that the call itself never raises. -/
def click_appeal (net : EstamaNet) (st : ESt) : Except PyExc (Bool × ESt) :=
  let ens := ensure_login net st
  if !ens.1 then .ok (false, ens.2.1)
  else
    let st1 := ens.2.1
    pyTry
      (net.guidancePage >>= fun page =>
        appealCsrf page st1 >>= fun csrf =>
        (appealLoop net page csrf 0 page.appeal_links).map (fun b => (b, st1)))
      (fun _ => .ok (false, st1))

/-- Separator class of the news date pattern. -/
def isDateSep (c : Char) : Bool := c = '/' || c = '-'

/-- Greedy one-or-two digits followed by a separator, with the regex
backtracking step: two digits then a separator, else one digit then a
separator; returns the consumed characters and the rest. -/
def matchMonthSep (l : List Char) : Option (List Char × List Char) :=
  match l with
  | c1 :: c2 :: c3 :: rest =>
    if c1.isDigit && c2.isDigit && isDateSep c3 then some ([c1, c2, c3], rest)
    else if c1.isDigit && isDateSep c2 then some ([c1, c2], c3 :: rest)
    else none
  | [c1, c2] => if c1.isDigit && isDateSep c2 then some ([c1, c2], []) else none
  | _ => none

/-- Greedy trailing one-or-two digits of the date pattern. -/
def matchDay : List Char → Option (List Char)
  | c1 :: c2 :: _ => if c1.isDigit then (if c2.isDigit then some [c1, c2] else some [c1]) else none
  | [c1] => if c1.isDigit then some [c1] else none
  | [] => none

/-- Match of the news date pattern, four digits, separator, one or two
digits, separator, one or two digits, anchored at the head of the list. -/
def matchDateAt (l : List Char) : Option (List Char) :=
  match l with
  | y1 :: y2 :: y3 :: y4 :: s1 :: rest =>
    if y1.isDigit && y2.isDigit && y3.isDigit && y4.isDigit && isDateSep s1 then
      match matchMonthSep rest with
      | some (ms, rest2) =>
        match matchDay rest2 with
        | some ds => some ([y1, y2, y3, y4, s1] ++ ms ++ ds)
        | none => none
      | none => none
    else none
  | _ => none

/-- re.search of the news date pattern: the leftmost match. -/
def searchDate : List Char → Option (List Char)
  | [] => none
  | c :: rest =>
    match matchDateAt (c :: rest) with
    | some m => some m
    | none => searchDate rest

/-- Python str.replace of a nonempty pattern with the empty string:
drop every non-overlapping occurrence left to right. The fuel is the
length of the scanned list, which the scan never outruns. -/
def removeAllFuel (pat : List Char) : Nat → List Char → List Char
  | 0, s => s
  | _ + 1, [] => []
  | f + 1, c :: rest =>
    if !pat.isEmpty && pat.isPrefixOf (c :: rest) then
      removeAllFuel pat f ((c :: rest).drop pat.length)
    else c :: removeAllFuel pat f rest

/-- Python line.replace(pattern, empty). -/
def removeAll (s pat : List Char) : List Char := removeAllFuel pat s.length s

/-- Table branch of get_news_list: per table skip the header row, keep
rows with at least two td cells, slice the title to fifty characters and
take the last cell as the date. -/
def news_table_items (tables : List (List (List (List Char)))) : List NewsItem :=
  tables.foldl
    (fun acc rows =>
      (rows.drop 1).foldl
        (fun acc cells =>
          if 2 ≤ cells.length then
            acc ++ [{ title := (cells.headD []).take 50,
                      date := if 1 < cells.length then cells.getLastD [] else [] }]
          else acc)
        acc)
    []

/-- Fallback branch of get_news_list: stripped lines of moderate length
holding a date pattern become items whose title is the line with every
occurrence of the matched date removed, stripped again. -/
def news_fallback_items (text_lines : List (List Char)) : List NewsItem :=
  text_lines.foldl
    (fun acc line0 =>
      let line := pyStrip line0
      if !line.isEmpty && 5 < line.length && line.length < 100 then
        match searchDate line with
        | some pat => acc ++ [{ title := pyStrip (removeAll line pat), date := pat }]
        | none => acc
      else acc)
    []

/-- get_news_list: ensure the session, prefer the table branch, fall back
to the free-text scan, and cap the list at ten; every exception is caught
into the empty list. -/
def get_news_list (net : EstamaNet) (st : ESt) : Except PyExc (List NewsItem × ESt) :=
  let ens := ensure_login net st
  if !ens.1 then .ok ([], ens.2.1)
  else
    let st1 := ens.2.1
    pyTry
      (net.newsPage >>= fun page =>
        let items := news_table_items page.tables
        let items := if items.isEmpty then news_fallback_items page.text_lines else items
        .ok (items.take 10, st1))
      (fun _ => .ok ([], st1))

/-- Prefix match of the schedule date pattern of Client B: digits slash
digits, or digits, the month kanji, digits, the day kanji. -/
def estDateMatch (l : List Char) : Bool :=
  (match l.span Char.isDigit with
   | (ds, '/' :: rest) => !ds.isEmpty && !(rest.takeWhile Char.isDigit).isEmpty
   | _ => false)
  ||
  (match l.span Char.isDigit with
   | (ds, '月' :: rest) =>
     !ds.isEmpty &&
       (match rest.span Char.isDigit with
        | (ds2, '日' :: _) => !ds2.isEmpty
        | _ => false)
   | _ => false)

/-- Match of the time pattern, one or two digits, colon, two digits,
anchored at the head of the list, with the greedy backtracking step. -/
def matchTimeAt (l : List Char) : Bool :=
  match l with
  | d1 :: rest =>
    if !d1.isDigit then false
    else
      match rest with
      | d2 :: rest2 =>
        if d2.isDigit then
          match rest2 with
          | c :: m1 :: m2 :: _ => c = ':' && m1.isDigit && m2.isDigit
          | _ => false
        else if d2 = ':' then
          match rest2 with
          | m1 :: m2 :: _ => m1.isDigit && m2.isDigit
          | _ => false
        else false
      | [] => false
  | [] => false

/-- re.search of the time pattern. -/
def searchTime : List Char → Bool
  | [] => false
  | c :: rest => matchTimeAt (c :: rest) || searchTime rest

/-- The line scan of get_schedule of Client B: date-pattern lines become
date headers and reset the current date; lines holding a time token while
a date is current become time rows. -/
def schedule_fold (lines : List (List Char)) : List (List Char) :=
  (lines.foldl
    (fun (acc : List (List Char) × List Char) line0 =>
      let line := pyStrip line0
      if line.isEmpty then acc
      else if estDateMatch line then (acc.1 ++ ['\n' :: '📅' :: ' ' :: line], line)
      else if searchTime line && !acc.2.isEmpty then (acc.1 ++ [' ' :: ' ' :: '⏰' :: ' ' :: line], acc.2)
      else acc)
    ([], [])).1

/-- The schedule text of Client B before the cap: the joined scan lines,
or the first 1500 characters of the page text when nothing matched. -/
def schedule_text (text : List Char) : List Char :=
  let sl := schedule_fold (splitOnChar '\n' text)
  if !sl.isEmpty then List.intercalate ['\n'] sl else text.take 1500

/-- The cap applied by get_schedule of Client B: 3000 characters with the
three-dot marker. -/
def schedule_cap (t : List Char) : List Char := truncatePy 3000 ('\n' :: '.' :: '.' :: '.' :: []) t

/-- get_schedule of Client B: ensure the session, scan the page text and
return the capped schedule text; an exception yields the error dict. -/
def get_schedule (net : EstamaNet) (st : ESt) :
    Except PyExc (Except String (List Char) × ESt) :=
  let ens := ensure_login net st
  if !ens.1 then .ok (.error "ログインに失敗しました", ens.2.1)
  else
    let st1 := ens.2.1
    pyTry
      (net.schedulePage >>= fun text => .ok (.ok (schedule_cap (schedule_text text)), st1))
      (fun e => .ok (.error e, st1))

end EstamaClient

/- Text shaping in bot.py around the portal results. -/

/-- The continuation marker of the bot schedule view. -/
def botScheduleMarker : List Char := "\n\n... (続きは管理画面で確認)".data

/-- The cap of the bot on Client A schedule text, 3500 characters with the
continuation marker. -/
def bot_caskan_schedule_cap (t : List Char) : List Char := truncatePy 3500 botScheduleMarker t

/-- The cap of the bot on row-based listing text, 4000 characters with the
three-dot marker. -/
def bot_rows_cap (t : List Char) : List Char := truncatePy 4000 ('\n' :: '.' :: '.' :: '.' :: []) t

/- A fragment of the Python value universe, used to state which returned
values carry an error field. -/

/-- Python values as the bot layer sees them. -/
inductive PyVal where
  | vStr : String → PyVal
  | vList : List PyVal → PyVal
  | vDict : List (String × PyVal) → PyVal

/-- The Python value of a cast-list result. -/
def pyOfCastList (l : List String) : PyVal := .vList (l.map .vStr)

/-- Whether a Python value carries an error field. -/
def hasErrorField : PyVal → Bool
  | .vDict fields => fields.any (fun p => p.1 == "error")
  | _ => false

/- Lemmas about the monthly aggregation. -/

instance {ε α : Type} [DecidableEq ε] [DecidableEq α] : DecidableEq (Except ε α) := fun x y =>
  match x, y with
  | .ok a, .ok b =>
    if h : a = b then isTrue (by rw [h]) else isFalse (fun hc => by cases hc; exact h rfl)
  | .error a, .error b =>
    if h : a = b then isTrue (by rw [h]) else isFalse (fun hc => by cases hc; exact h rfl)
  | .ok _, .error _ => isFalse (fun hc => by cases hc)
  | .error _, .ok _ => isFalse (fun hc => by cases hc)


namespace CaskanClient

/-- Label-adjacency sales extraction of get_home_info: a stripped line
equal to a period label stores the next stripped line under that key;
later matches overwrite earlier ones as dict assignment does. -/
def homeSales (lines : List String) : SalesMap :=
  (List.range lines.length).foldl
    (fun s i =>
      let line_s := pyStripS (lines.getD i "")
      if line_s = "本日" ∧ i + 1 < lines.length then
        { s with today := some (pyStripS (lines.getD (i + 1) "")) }
      else if line_s = "昨日" ∧ i + 1 < lines.length then
        { s with yesterday := some (pyStripS (lines.getD (i + 1) "")) }
      else if line_s = "今月" ∧ i + 1 < lines.length then
        { s with this_month := some (pyStripS (lines.getD (i + 1) "")) }
      else if line_s = "昨月" ∧ i + 1 < lines.length then
        { s with last_month := some (pyStripS (lines.getD (i + 1) "")) }
      else s)
    { today := none, yesterday := none, this_month := none, last_month := none }

/-- Textarea scan of get_home_info: a textarea holding the attendance
label fills the attendance text, else one holding the guidance label
fills the guidance text; later textareas overwrite earlier ones. -/
def homeTextareas (tas : List String) : String × String :=
  tas.foldl
    (fun acc content =>
      if pyIn "出勤情報" content then (content, acc.2)
      else if pyIn "案内状況" content then (acc.1, content)
      else acc)
    ("", "")

/-- get_home_info: ensure the session and extract the sales figures and
the attendance and guidance blocks; an exception yields the error dict. -/
def get_home_info (net : CaskanNet) (st : CasSt) :
    Except PyExc (Except String HomeInfo × CasSt) :=
  let ens := ensure_login net st
  if !ens.1 then .ok (.error "ログインに失敗しました", ens.2.1)
  else
    let st1 := ens.2.1
    pyTry
      (net.homePage >>= fun page =>
        .ok (.ok { sales := homeSales page.text_lines,
                   attendance_text := (homeTextareas page.textareas).1,
                   guidance_text := (homeTextareas page.textareas).2 }, st1))
      (fun e => .ok (.error e, st1))

/-- Weekday kanji class of the week-view date pattern. -/
def isWeekdayKanji (c : Char) : Bool :=
  c = '月' || c = '火' || c = '水' || c = '木' || c = '金' || c = '土' || c = '日'

/-- Prefix match of the week-view date pattern of Client A: one or more
digits, a slash, one or more digits, optional whitespace, and a weekday
kanji in parentheses; returns the matched group. -/
def dateGroupMatch (l : List Char) : Option (List Char) :=
  match l.span Char.isDigit with
  | (ds1, '/' :: rest) =>
    if ds1.isEmpty then none
    else
      match rest.span Char.isDigit with
      | (ds2, rest2) =>
        if ds2.isEmpty then none
        else
          match rest2.span Char.isWhitespace with
          | (ws, '(' :: wd :: ')' :: _) =>
            if isWeekdayKanji wd then
              some (ds1 ++ '/' :: ds2 ++ ws ++ '(' :: wd :: ')' :: [])
            else none
          | _ => none
  | _ => none

/-- Match of an HH:MM clock token anchored at the head of the list, one
or two hour digits with the greedy backtracking step, a colon and two
minute digits; returns the rest of the list after the match. -/
def matchClock : List Char → Option (List Char)
  | d1 :: rest =>
    if !d1.isDigit then none
    else
      match rest with
      | d2 :: rest2 =>
        if d2.isDigit then
          match rest2 with
          | ':' :: m1 :: m2 :: rest3 =>
            if m1.isDigit && m2.isDigit then some rest3 else none
          | _ => none
        else if d2 = ':' then
          match rest2 with
          | m1 :: m2 :: rest3 =>
            if m1.isDigit && m2.isDigit then some rest3 else none
          | _ => none
        else none
      | [] => none
  | [] => none

/-- Range separator class of the week-view time pattern. -/
def isRangeSep (c : Char) : Bool := c = '〜' || c = '~' || c = '-'

/-- Match of the clock-range pattern, clock, separator, clock, anchored
at the head of the list. -/
def matchTimeRangeAt (l : List Char) : Bool :=
  match matchClock l with
  | none => false
  | some rest =>
    match rest with
    | sep :: rest2 => isRangeSep sep && (matchClock rest2).isSome
    | [] => false

/-- re.search of the clock-range pattern. -/
def searchTimeRange : List Char → Bool
  | [] => false
  | c :: rest => matchTimeRangeAt (c :: rest) || searchTimeRange rest

/-- The line scan of get_schedule of Client A: a date-pattern prefix
emits a date header holding the matched group and becomes the current
date; a line holding the room substring case-insensitively emits a room
row; a line with a clock range while a date is current emits a time row;
a short all-native-script line while a date is current emits a name row. -/
def schedule_fold (lines : List (List Char)) : List (List Char) :=
  (lines.foldl
    (fun (acc : List (List Char) × List Char) line0 =>
      let line := pyStrip line0
      if line.isEmpty then acc
      else
        match dateGroupMatch line with
        | some cd => (acc.1 ++ ['\n' :: '📅' :: ' ' :: cd], cd)
        | none =>
          if infixB "room".data (pyLower line) then
            (acc.1 ++ [' ' :: ' ' :: '🏠' :: ' ' :: line], acc.2)
          else if searchTimeRange line && !acc.2.isEmpty then
            (acc.1 ++ [' ' :: ' ' :: '⏰' :: ' ' :: line], acc.2)
          else if !acc.2.isEmpty && line.length < 15 && jpOnly line then
            (acc.1 ++ [' ' :: ' ' :: '👤' :: ' ' :: line], acc.2)
          else acc)
    ([], [])).1

/-- The schedule text of Client A: the joined scan lines, or the
not-found message when nothing matched; Client A applies no cap, the bot
truncates at 3500. -/
def schedule_text (text : List Char) : List Char :=
  let sl := schedule_fold (splitOnChar '\n' text)
  if !sl.isEmpty then List.intercalate ['\n'] sl
  else "スケジュール情報が見つかりません".data

/-- get_schedule of Client A: ensure the session and scan the week-view
text; an exception yields the error dict. -/
def get_schedule (net : CaskanNet) (st : CasSt) :
    Except PyExc (Except String (List Char) × CasSt) :=
  let ens := ensure_login net st
  if !ens.1 then .ok (.error "ログインに失敗しました", ens.2.1)
  else
    let st1 := ens.2.1
    pyTry
      (net.schedulePage >>= fun text => .ok (.ok (schedule_text text), st1))
      (fun e => .ok (.error e, st1))

end CaskanClient

namespace EstamaClient

/-- The digit-neighbour search of the dashboard points field: the first
line with index in the window from two before the label to one after it
whose stripped text is all digits. -/
def dashPoints (lines : List String) (i : Nat) : Option String :=
  (List.range' (i - 2) (min lines.length (i + 2) - (i - 2))).foldl
    (fun acc j =>
      match acc with
      | some _ => acc
      | none =>
        let lj := pyStripS (lines.getD j "")
        if allDigits lj.data then some lj else none)
    none

/-- The dashboard extraction: label-bearing stripped lines fill the shop
fields, the points label triggers the digit-neighbour search, and anchors
whose text holds the reservation kanji with a nonempty href become
notifications. -/
def dashboard_of (lines : List String) (links : List (String × String)) : Dashboard :=
  let d :=
    (List.range lines.length).foldl
      (fun (d : Dashboard) i =>
        let line := pyStripS (lines.getD i "")
        if pyIn "全力エステ" line ∧ pyIn "仙台" line then { d with shop_name := line }
        else if pyIn "店舗番号" line then { d with shop_number := line }
        else if pyIn "ご契約期間" line then { d with contract_period := line }
        else if pyIn "プラン" line ∧
            (pyIn "プラチナ" line ∨ pyIn "ゴールド" line ∨ pyIn "シルバー" line) then
          { d with plan := line }
        else if pyIn "ポイント" line ∧ 0 < i then
          match dashPoints lines i with
          | some p => { d with points := p }
          | none => d
        else d)
      { shop_name := "", shop_number := "", plan := "", contract_period := "",
        points := "", notifications := [], menu_items := [] }
  let notifications :=
    links.foldl
      (fun acc link =>
        if pyIn "予約" link.2 ∧ link.1 ≠ "" then acc ++ [link.2] else acc)
      []
  { d with notifications := notifications }

/-- get_dashboard: ensure the session and extract the dashboard fields;
an exception yields the error dict. -/
def get_dashboard (net : EstamaNet) (st : ESt) :
    Except PyExc (Except String Dashboard × ESt) :=
  let ens := ensure_login net st
  if !ens.1 then .ok (.error "ログインに失敗しました", ens.2.1)
  else
    let st1 := ens.2.1
    pyTry
      (net.dashboardPage >>= fun page =>
        .ok (.ok (dashboard_of page.text_lines page.links), st1))
      (fun e => .ok (.error e, st1))

/-- The guidance-status extraction: the whole-text substring checks pick
one of the three canonical labels with the unknown default, and short
all-native-script stripped lines become the therapist list. -/
def guidance_status_of (text : List Char) : GuidanceStatus :=
  let status :=
    if infixB "今すぐご案内可".data text then "◎ 今すぐご案内可"
    else if infixB "ご案内終了".data text then "✕ ご案内終了"
    else if infixB "受付中".data text then "○ 受付中"
    else "不明"
  let therapists :=
    (splitOnChar '\n' text).foldl
      (fun acc line0 =>
        let line := pyStrip line0
        if !line.isEmpty && line.length < 20 && jpOnly line then
          acc ++ [String.mk line]
        else acc)
      []
  { status := status, therapists := therapists }

/-- get_guidance_status: ensure the session and classify the guidance
page text; an exception yields the error dict. -/
def get_guidance_status (net : EstamaNet) (st : ESt) :
    Except PyExc (Except String GuidanceStatus × ESt) :=
  let ens := ensure_login net st
  if !ens.1 then .ok (.error "ログインに失敗しました", ens.2.1)
  else
    let st1 := ens.2.1
    pyTry
      (net.guidancePage >>= fun page =>
        .ok (.ok (guidance_status_of page.text), st1))
      (fun e => .ok (.error e, st1))

end EstamaClient

def c3wnetA : CaskanNet :=
  { step1 := .error "netfail", step2 := .error "netfail",
    probe := .ok ⟨200, "https://my.caskan.jp/", ""⟩,
    roomPage := .error "netfail", weekPage := fun _ => .error "netfail",
    castPage := .error "netfail", resvPage := .error "netfail",
    homePage := .error "netfail", schedulePage := .error "netfail" }

def c3wnetB : EstamaNet :=
  { loginPage := .error "netfail", loginPost := .error "netfail",
    probe := .ok ⟨200, "https://estama.jp/admin/", ""⟩,
    guidancePage := .error "netfail", appealPost := fun _ _ => .error "netfail",
    appealGet := .error "netfail", newsPage := .error "netfail",
    resvPage := .error "netfail", schedulePage := .error "netfail",
    dashboardPage := .error "netfail" }

def c1net : CaskanNet :=
  { step1 := .error "down", step2 := .error "down",
    probe := .ok ⟨200, "https://my.caskan.jp/", ""⟩,
    roomPage := .ok [], weekPage := fun _ => .ok [],
    castPage := .error "down", resvPage := .error "down",
    homePage := .error "x", schedulePage := .error "x" }

def c1shift : MonthlyShift :=
  { year := 2025, month := 3, room_map := [],
    days := CaskanClient.fillDays 2025 3 (fun _ => []) 1 31 }

def c2net : CaskanNet :=
  { step1 := .error "down", step2 := .error "down",
    probe := .ok ⟨200, "https://my.caskan.jp/", ""⟩,
    roomPage := .ok [],
    weekPage := fun k =>
      if k = "2026-01-01" then
        .ok [[⟨some ⟨["花子", "10:00-17:00"], some ⟨"2", some "2026-01-05"⟩⟩⟩]]
      else .ok [],
    castPage := .error "down", resvPage := .error "down",
    homePage := .error "x", schedulePage := .error "x" }

def c2A : String → List ShiftEntry :=
  fun k => if k = "2026-01-05" then [⟨"花子", "10:00-17:00", "2", "Room2"⟩] else []

def c2shift : MonthlyShift :=
  { year := 2026, month := 1, room_map := [],
    days := CaskanClient.fillDays 2026 1 c2A 1 31 }

def c2rec : DayRecord :=
  { weekday := "月", shifts := [⟨"花子", "10:00-17:00", "2", "Room2"⟩], rooms_used := ["2"] }

def c7net : CaskanNet :=
  { step1 := .error "down", step2 := .error "down",
    probe := .ok ⟨200, "https://my.caskan.jp/", ""⟩,
    roomPage := .ok [], weekPage := fun _ => .ok [],
    castPage := .error "down", resvPage := .error "down",
    homePage := .error "x", schedulePage := .error "x" }

def c7shift : MonthlyShift :=
  { year := 2024, month := 2, room_map := [],
    days := CaskanClient.fillDays 2024 2 (fun _ => []) 1 29 }

/- Error propagation of the public operations. -/

def c3net : CaskanNet :=
  { step1 := .error "x", step2 := .error "x",
    probe := .ok ⟨200, "https://my.caskan.jp/", ""⟩,
    roomPage := .error "x", weekPage := fun _ => .error "x",
    castPage := .error "requests.exceptions.ConnectionError", resvPage := .error "x",
    homePage := .error "x", schedulePage := .error "x" }

def c5net : CaskanNet :=
  { step1 := .ok ⟨200, "https://my.caskan.jp/login", ""⟩,
    step2 := .ok ⟨500, "https://my.caskan.jp/maintenance", ""⟩,
    probe := .error "x", roomPage := .error "x", weekPage := fun _ => .error "x",
    castPage := .error "x", resvPage := .error "x",
    homePage := .error "x", schedulePage := .error "x" }

def c5wnet : CaskanNet :=
  { step1 := .ok ⟨503, "https://my.caskan.jp/login", ""⟩,
    step2 := .error "x", probe := .error "x", roomPage := .error "x",
    weekPage := fun _ => .error "x", castPage := .error "x", resvPage := .error "x",
    homePage := .error "x", schedulePage := .error "x" }

def c6net : EstamaNet :=
  { loginPage := .ok ⟨none⟩, loginPost := .ok ⟨200, some ["OK"]⟩, probe := .error "x",
    guidancePage := .error "x", appealPost := fun _ _ => .error "x", appealGet := .error "x",
    newsPage := .error "x", resvPage := .error "x", schedulePage := .error "x", dashboardPage := .error "x" }

def c10netA : CaskanNet :=
  { step1 := .error "x", step2 := .error "x",
    probe := .error "requests.exceptions.Timeout",
    roomPage := .error "x", weekPage := fun _ => .error "x",
    castPage := .error "x", resvPage := .error "x",
    homePage := .error "x", schedulePage := .error "x" }

def c10netB : EstamaNet :=
  { loginPage := .error "x", loginPost := .error "x",
    probe := .error "requests.exceptions.Timeout",
    guidancePage := .error "x", appealPost := fun _ _ => .error "x", appealGet := .error "x",
    newsPage := .error "x", resvPage := .error "x", schedulePage := .error "x", dashboardPage := .error "x" }

/- Reservation and news listings. -/

def c8tablesA : List (List (List String)) := [List.replicate 25 ["A", "B"]]

def c8tablesB : List (List (List String)) := [List.replicate 5 ["C"]]

def c8netA : CaskanNet :=
  { step1 := .error "x", step2 := .error "x",
    probe := .ok ⟨200, "https://my.caskan.jp/", ""⟩,
    roomPage := .error "x", weekPage := fun _ => .error "x",
    castPage := .error "x", resvPage := .ok c8tablesA,
    homePage := .error "x", schedulePage := .error "x" }

def c8netB : EstamaNet :=
  { loginPage := .error "x", loginPost := .error "x",
    probe := .ok ⟨200, "https://estama.jp/admin/", ""⟩,
    guidancePage := .error "x", appealPost := fun _ _ => .error "x", appealGet := .error "x",
    newsPage := .error "x", resvPage := .ok c8tablesB, schedulePage := .error "x", dashboardPage := .error "x" }

def c8resA : ReservationsOk := { reservations := List.replicate 20 "A | B", count := 25 }

def c8resB : ReservationsOk := { reservations := List.replicate 5 "C", count := 5 }

def c9wpage : NewsPage :=
  { tables := [[[['h']], [List.replicate 60 't', "2024/1/1".data]]], text_lines := [] }

def c9wnet : EstamaNet :=
  { loginPage := .error "x", loginPost := .error "x",
    probe := .ok ⟨200, "https://estama.jp/admin/", ""⟩,
    guidancePage := .error "x", appealPost := fun _ _ => .error "x", appealGet := .error "x",
    newsPage := .ok c9wpage, resvPage := .error "x", schedulePage := .error "x", dashboardPage := .error "x" }

def c9witems : List NewsItem := [⟨List.replicate 50 't', "2024/1/1".data⟩]

def c9page : NewsPage :=
  { tables := [], text_lines := ["2024-1-1".data ++ List.replicate 91 'a'] }

def c9net : EstamaNet :=
  { loginPage := .error "x", loginPost := .error "x",
    probe := .ok ⟨200, "https://estama.jp/admin/", ""⟩,
    guidancePage := .error "x", appealPost := fun _ _ => .error "x", appealGet := .error "x",
    newsPage := .ok c9page, resvPage := .error "x", schedulePage := .error "x", dashboardPage := .error "x" }

/- Truncation behaviour. -/

def c4small : List Char := ['a', 'b']

def c4big : List Char := List.replicate 3501 'a'

/- The counterexample to C4 as stated needs a schedule text whose length
lies strictly between 3000 and 3500; the following lemmas trace one
single-line page through the extraction without evaluating the long list. -/

def c4line : List Char := '1' :: '1' :: '/' :: '1' :: '1' :: List.replicate 3091 'a'

def c4text : List Char := c4line

def c4net : EstamaNet :=
  { loginPage := .error "x", loginPost := .error "x",
    probe := .ok ⟨200, "https://estama.jp/admin/", ""⟩,
    guidancePage := .error "x", appealPost := fun _ _ => .error "x", appealGet := .error "x",
    newsPage := .error "x", resvPage := .error "x", schedulePage := .ok c4text, dashboardPage := .error "x" }

theorem fillDays_eq_map (y m : Nat) (A : String → List ShiftEntry) :
    ∀ k d, CaskanClient.fillDays y m A d k =
      (List.range' d k).map (fun j => (isoDate y m j, CaskanClient.dayRec y m A j)) := by
  intro k
  induction k with
  | zero => intro d; rfl
  | succ k ih =>
    intro d
    simp [CaskanClient.fillDays, List.range'_succ, ih]

theorem pad2_inj : ∀ a, a < 100 → ∀ b, b < 100 → pad2 a = pad2 b → a = b := by decide

theorem isoDate_inj (y m : Nat) {d1 d2 : Nat} (h1 : d1 < 100) (h2 : d2 < 100)
    (h : isoDate y m d1 = isoDate y m d2) : d1 = d2 := by
  apply pad2_inj d1 h1 d2 h2
  apply String.ext
  have hd := congrArg String.data h
  simp only [isoDate, String.data_append, List.append_assoc] at hd
  exact List.append_cancel_left (List.append_cancel_left
    (List.append_cancel_left (List.append_cancel_left hd)))

theorem daysInMonth_le (y m : Nat) : daysInMonth y m ≤ 31 := by
  unfold daysInMonth mdays
  rcases m with _ | _ | _ | _ | _ | _ | _ | _ | _ | _ | _ | _ | _ | m <;>
      simp [List.getD_cons_succ, List.getD_cons_zero, List.getD_nil] <;>
    split <;> omega

theorem daysInMonth_pos (y m : Nat) (h1 : 1 ≤ m) (h2 : m ≤ 12) :
    1 ≤ daysInMonth y m := by
  unfold daysInMonth mdays
  rcases m with _ | _ | _ | _ | _ | _ | _ | _ | _ | _ | _ | _ | _ | m <;>
      simp [List.getD_cons_succ, List.getD_cons_zero, List.getD_nil] <;>
    omega

theorem lookup_isoDate_map (y m : Nat) (f : Nat → DayRecord) :
    ∀ (k s d : Nat), s + k ≤ 100 → s ≤ d → d < s + k →
      ((List.range' s k).map (fun j => (isoDate y m j, f j))).lookup (isoDate y m d)
        = some (f d) := by
  intro k
  induction k with
  | zero => intro s d _ _ _; omega
  | succ k ih =>
    intro s d hb hs hd
    rw [List.range'_succ]
    simp only [List.map_cons, List.lookup_cons]
    rcases Nat.eq_or_lt_of_le hs with heq | hlt
    · subst heq
      simp
    · have hne : (isoDate y m d == isoDate y m s) = false := by
        apply beq_false_of_ne
        intro hc
        have := isoDate_inj y m (by omega) (by omega) hc
        omega
      rw [hne]
      exact ih (s + 1) d (by omega) (by omega) (by omega)

theorem monthly_ok_elim (net : CaskanNet) (st : CasSt) (y m : Nat)
    (r : MonthlyShift) (st' : CasSt)
    (hok : CaskanClient.get_monthly_shift net st y m = (.ok r, st')) :
    ∃ A, CaskanClient.collectWeeks net r.room_map y m 1
        (CaskanClient.numWeeks (daysInMonth y m)) (fun _ => []) = Except.ok A ∧
      r.days = CaskanClient.fillDays y m A 1 (daysInMonth y m) := by
  simp only [CaskanClient.get_monthly_shift] at hok
  split at hok
  · exact MonthlyResult.noConfusion (congrArg Prod.fst hok)
  · split at hok
    · split at hok
      · exact MonthlyResult.noConfusion (congrArg Prod.fst hok)
      · rename_i A hA
        injection hok with h1 h2
        injection h1 with h1
        subst h1
        exact ⟨A, hA, rfl⟩
    · exact MonthlyResult.noConfusion (congrArg Prod.fst hok)

/-- C1: whenever get_monthly_shift returns a success value, the days map
has exactly daysInMonth(y, m) entries, keyed in order by the strftime ISO
date of every day between the first and the last day of the month with no
duplicate keys, and the record under every date key is built from the
accumulated shift dict with the empty list as default, so a date with no
parsed shifts is present with an empty shift list rather than missing. -/
theorem c1_monthly_days_complete (net : CaskanNet) (st : CasSt) (y m : Nat)
    (r : MonthlyShift) (st' : CasSt)
    (hok : CaskanClient.get_monthly_shift net st y m = (.ok r, st')) :
    r.days.length = daysInMonth y m ∧
    r.days.map Prod.fst = (List.range' 1 (daysInMonth y m)).map (isoDate y m) ∧
    (r.days.map Prod.fst).Nodup ∧
    ∃ A, CaskanClient.collectWeeks net r.room_map y m 1
        (CaskanClient.numWeeks (daysInMonth y m)) (fun _ => []) = Except.ok A ∧
      ∀ d, 1 ≤ d → d ≤ daysInMonth y m →
        r.days.lookup (isoDate y m d) = some (CaskanClient.dayRec y m A d) := by
  obtain ⟨A, hA, hdays⟩ := monthly_ok_elim net st y m r st' hok
  have hle := daysInMonth_le y m
  rw [hdays, fillDays_eq_map]
  have hkeys :
      (((List.range' 1 (daysInMonth y m)).map
          (fun j => (isoDate y m j, CaskanClient.dayRec y m A j))).map Prod.fst)
        = (List.range' 1 (daysInMonth y m)).map (isoDate y m) := by
    simp [List.map_map]
  refine ⟨by simp, hkeys, ?_, A, hA, ?_⟩
  · rw [hkeys]
    apply List.Nodup.map_on
    · intro a ha b hb hab
      obtain ⟨i, hi, rfl⟩ := List.mem_range'.mp ha
      obtain ⟨j, hj, rfl⟩ := List.mem_range'.mp hb
      exact isoDate_inj y m (by omega) (by omega) hab
    · exact List.nodup_range' 1 _
  · intro d h1 h2
    exact lookup_isoDate_map y m _ (daysInMonth y m) 1 d (by omega) h1 (by omega)

/-- Witness for C1: a concrete success of the March 2025 aggregation. -/
theorem c1_witness : c1shift.days.length = daysInMonth 2025 3 := by
  have h : CaskanClient.get_monthly_shift c1net ⟨true⟩ 2025 3 = (.ok c1shift, ⟨true⟩) := by
    decide
  exact (c1_monthly_days_complete c1net ⟨true⟩ 2025 3 c1shift ⟨true⟩ h).1

/-- C2: in every success value of get_monthly_shift, every day record
lists as rooms_used exactly the distinct room ids of the shifts of that
day: no duplicates, and membership coincides with membership among the
room ids of the shifts. -/
theorem c2_rooms_used_set (net : CaskanNet) (st : CasSt) (y m : Nat)
    (r : MonthlyShift) (st' : CasSt)
    (hok : CaskanClient.get_monthly_shift net st y m = (.ok r, st'))
    (k : String) (rec : DayRecord) (hmem : (k, rec) ∈ r.days) :
    rec.rooms_used.Nodup ∧
    (∀ rid, rid ∈ rec.rooms_used ↔ rid ∈ rec.shifts.map ShiftEntry.room_id) := by
  obtain ⟨A, hA, hdays⟩ := monthly_ok_elim net st y m r st' hok
  rw [hdays, fillDays_eq_map] at hmem
  obtain ⟨j, hj, hrec⟩ := List.mem_map.mp hmem
  injection hrec with hk hr
  subst hr
  refine ⟨?_, fun rid => ?_⟩ <;>
    simp [CaskanClient.dayRec, List.nodup_dedup, List.mem_dedup]

/-- Witness for C2: a concrete January 2026 success with one shift. -/
theorem c2_witness :
    c2rec.rooms_used.Nodup ∧
    ("2" ∈ c2rec.rooms_used ↔ "2" ∈ c2rec.shifts.map ShiftEntry.room_id) := by
  have h : CaskanClient.get_monthly_shift c2net ⟨true⟩ 2026 1 = (.ok c2shift, ⟨true⟩) := by
    decide
  have hm : ("2026-01-05", c2rec) ∈ c2shift.days := by decide
  have hc := c2_rooms_used_set c2net ⟨true⟩ 2026 1 c2shift ⟨true⟩ h "2026-01-05" c2rec hm
  exact ⟨hc.1, hc.2 "2"⟩

/-- C7: every success of get_monthly_shift for February 2024 has exactly
29 day entries, and the record of February 1 carries the weekday label of
Thursday; the label list maps the Python weekday index, Monday as zero,
to the kanji labels. -/
theorem c7_feb2024_leap (net : CaskanNet) (st : CasSt) (r : MonthlyShift) (st' : CasSt)
    (hok : CaskanClient.get_monthly_shift net st 2024 2 = (.ok r, st')) :
    r.days.length = 29 ∧
    (r.days.lookup "2024-02-01").map DayRecord.weekday = some "木" := by
  obtain ⟨A, hA, hdays⟩ := monthly_ok_elim net st 2024 2 r st' hok
  rw [hdays, fillDays_eq_map]
  constructor
  · simp [show daysInMonth 2024 2 = 29 from by decide]
  · rw [show ("2024-02-01" : String) = isoDate 2024 2 1 from by decide,
      show daysInMonth 2024 2 = 29 from by decide,
      lookup_isoDate_map 2024 2 _ 29 1 1 (by omega) (by omega) (by omega)]
    show some (CaskanClient.dayRec 2024 2 A 1).weekday = some "木"
    show some (weekdayLabel 2024 2 1) = some "木"
    decide

/-- Witness for C7: a concrete success of the February 2024 aggregation. -/
theorem c7_witness :
    c7shift.days.length = 29 ∧
    (c7shift.days.lookup "2024-02-01").map DayRecord.weekday = some "木" := by
  exact c7_feb2024_leap c7net ⟨true⟩ c7shift ⟨true⟩ (by decide)

theorem pyTry_ok (body : Except PyExc α) (handler : PyExc → Except PyExc α)
    (h : ∀ e, ∃ v, handler e = .ok v) : ∃ v, pyTry body handler = Except.ok v := by
  cases body with
  | ok v => exact ⟨v, rfl⟩
  | error e => exact h e

theorem except_bind_error {α β : Type} (e : PyExc) (f : α → Except PyExc β) :
    ((Except.error e : Except PyExc α) >>= f) = Except.error e := rfl

/-- C3 (amended): every public domain operation of both portal clients
returns a value for every network behaviour and every client state, and
no exception crosses the call boundary. On an internal fault, here a
raised transport exception on the page fetch, the dict-returning
operations return a value carrying a single error field with the
exception message, the monthly aggregation returns the error dict, while
get_cast_list and get_news_list return the empty list, get_room_map the
empty map, and click_appeal and login false, with no error field. -/
theorem c3_no_exception_amended :
    (∀ (net : CaskanNet) (st : CasSt), ∃ v, CaskanClient.get_home_info net st = Except.ok v) ∧
    (∀ (net : CaskanNet) (st : CasSt), ∃ v, CaskanClient.get_schedule net st = Except.ok v) ∧
    (∀ (net : CaskanNet) (st : CasSt), ∃ v, CaskanClient.get_reservations net st = Except.ok v) ∧
    (∀ (net : CaskanNet) (st : CasSt), ∃ v, CaskanClient.get_cast_list net st = Except.ok v) ∧
    (∀ (net : EstamaNet) (st : ESt), ∃ v, EstamaClient.get_dashboard net st = Except.ok v) ∧
    (∀ (net : EstamaNet) (st : ESt), ∃ v, EstamaClient.get_guidance_status net st = Except.ok v) ∧
    (∀ (net : EstamaNet) (st : ESt), ∃ v, EstamaClient.get_schedule net st = Except.ok v) ∧
    (∀ (net : EstamaNet) (st : ESt), ∃ v, EstamaClient.get_reservations net st = Except.ok v) ∧
    (∀ (net : EstamaNet) (st : ESt), ∃ v, EstamaClient.get_news_list net st = Except.ok v) ∧
    (∀ (net : EstamaNet) (st : ESt), ∃ v, EstamaClient.click_appeal net st = Except.ok v) ∧
    (∀ (net : CaskanNet) (st : CasSt) (e : PyExc), net.homePage = .error e →
      ∃ msg st', CaskanClient.get_home_info net st = Except.ok (.error msg, st')) ∧
    (∀ (net : CaskanNet) (st : CasSt) (e : PyExc), net.schedulePage = .error e →
      ∃ msg st', CaskanClient.get_schedule net st = Except.ok (.error msg, st')) ∧
    (∀ (net : CaskanNet) (st : CasSt) (e : PyExc), net.resvPage = .error e →
      ∃ msg st', CaskanClient.get_reservations net st = Except.ok (.error msg, st')) ∧
    (∀ (net : CaskanNet) (st : CasSt) (y m : Nat) (e : PyExc),
      net.weekPage (isoDate y m 1) = .error e →
      ∃ msg st', CaskanClient.get_monthly_shift net st y m = (.err msg, st')) ∧
    (∀ (net : CaskanNet) (st : CasSt) (e : PyExc), net.castPage = .error e →
      ∃ st', CaskanClient.get_cast_list net st = Except.ok ([], st')) ∧
    (∀ (net : CaskanNet) (st : CasSt) (e : PyExc), net.roomPage = .error e →
      ∃ st', CaskanClient.get_room_map net st = ([], st')) ∧
    (∀ (net : CaskanNet) (st : CasSt) (e : PyExc), net.step1 = .error e →
      (CaskanClient.login net st).1 = false) ∧
    (∀ (net : EstamaNet) (st : ESt) (e : PyExc), net.dashboardPage = .error e →
      ∃ msg st', EstamaClient.get_dashboard net st = Except.ok (.error msg, st')) ∧
    (∀ (net : EstamaNet) (st : ESt) (e : PyExc), net.guidancePage = .error e →
      ∃ msg st', EstamaClient.get_guidance_status net st = Except.ok (.error msg, st')) ∧
    (∀ (net : EstamaNet) (st : ESt) (e : PyExc), net.schedulePage = .error e →
      ∃ msg st', EstamaClient.get_schedule net st = Except.ok (.error msg, st')) ∧
    (∀ (net : EstamaNet) (st : ESt) (e : PyExc), net.resvPage = .error e →
      ∃ msg st', EstamaClient.get_reservations net st = Except.ok (.error msg, st')) ∧
    (∀ (net : EstamaNet) (st : ESt) (e : PyExc), net.newsPage = .error e →
      ∃ st', EstamaClient.get_news_list net st = Except.ok ([], st')) ∧
    (∀ (net : EstamaNet) (st : ESt) (e : PyExc), net.guidancePage = .error e →
      ∃ st', EstamaClient.click_appeal net st = Except.ok (false, st')) ∧
    (∀ (net : EstamaNet) (st : ESt) (e : PyExc), net.loginPage = .error e →
      (EstamaClient.login net st).1 = false) := by
  refine ⟨?_, ?_, ?_, ?_, ?_, ?_, ?_, ?_, ?_, ?_, ?_, ?_, ?_, ?_, ?_, ?_, ?_, ?_, ?_, ?_,
    ?_, ?_, ?_, ?_⟩
  · intro net st
    simp only [CaskanClient.get_home_info]
    split
    · exact ⟨_, rfl⟩
    · exact pyTry_ok _ _ (fun e => ⟨_, rfl⟩)
  · intro net st
    simp only [CaskanClient.get_schedule]
    split
    · exact ⟨_, rfl⟩
    · exact pyTry_ok _ _ (fun e => ⟨_, rfl⟩)
  · intro net st
    simp only [CaskanClient.get_reservations]
    split
    · exact ⟨_, rfl⟩
    · exact pyTry_ok _ _ (fun e => ⟨_, rfl⟩)
  · intro net st
    simp only [CaskanClient.get_cast_list]
    split
    · exact ⟨_, rfl⟩
    · exact pyTry_ok _ _ (fun e => ⟨_, rfl⟩)
  · intro net st
    simp only [EstamaClient.get_dashboard]
    split
    · exact ⟨_, rfl⟩
    · exact pyTry_ok _ _ (fun e => ⟨_, rfl⟩)
  · intro net st
    simp only [EstamaClient.get_guidance_status]
    split
    · exact ⟨_, rfl⟩
    · exact pyTry_ok _ _ (fun e => ⟨_, rfl⟩)
  · intro net st
    simp only [EstamaClient.get_schedule]
    split
    · exact ⟨_, rfl⟩
    · exact pyTry_ok _ _ (fun e => ⟨_, rfl⟩)
  · intro net st
    simp only [EstamaClient.get_reservations]
    split
    · exact ⟨_, rfl⟩
    · exact pyTry_ok _ _ (fun e => ⟨_, rfl⟩)
  · intro net st
    simp only [EstamaClient.get_news_list]
    split
    · exact ⟨_, rfl⟩
    · exact pyTry_ok _ _ (fun e => ⟨_, rfl⟩)
  · intro net st
    simp only [EstamaClient.click_appeal]
    split
    · exact ⟨_, rfl⟩
    · exact pyTry_ok _ _ (fun e => ⟨_, rfl⟩)
  · intro net st e h
    simp only [CaskanClient.get_home_info]
    split
    · exact ⟨_, _, rfl⟩
    · rw [h, except_bind_error]
      exact ⟨_, _, rfl⟩
  · intro net st e h
    simp only [CaskanClient.get_schedule]
    split
    · exact ⟨_, _, rfl⟩
    · rw [h, except_bind_error]
      exact ⟨_, _, rfl⟩
  · intro net st e h
    simp only [CaskanClient.get_reservations]
    split
    · exact ⟨_, _, rfl⟩
    · rw [h, except_bind_error]
      exact ⟨_, _, rfl⟩
  · intro net st y m e h
    simp only [CaskanClient.get_monthly_shift]
    split
    · exact ⟨_, _, rfl⟩
    · split
      · rename_i hv
        have hpos : 1 ≤ daysInMonth y m := daysInMonth_pos y m hv.2.2.1 hv.2.2.2
        obtain ⟨k, hk⟩ : ∃ k, CaskanClient.numWeeks (daysInMonth y m) = k + 1 := by
          unfold CaskanClient.numWeeks
          exact ⟨(daysInMonth y m + 6) / 7 - 1, by omega⟩
        rw [hk]
        simp only [CaskanClient.collectWeeks]
        rw [h]
        exact ⟨_, _, rfl⟩
      · exact ⟨_, _, rfl⟩
  · intro net st e h
    simp only [CaskanClient.get_cast_list]
    split
    · exact ⟨_, rfl⟩
    · rw [h, except_bind_error]
      exact ⟨_, rfl⟩
  · intro net st e h
    simp only [CaskanClient.get_room_map]
    split
    · exact ⟨_, rfl⟩
    · rw [h, except_bind_error]
      exact ⟨_, rfl⟩
  · intro net st e h
    simp [CaskanClient.login, h]
  · intro net st e h
    simp only [EstamaClient.get_dashboard]
    split
    · exact ⟨_, _, rfl⟩
    · rw [h, except_bind_error]
      exact ⟨_, _, rfl⟩
  · intro net st e h
    simp only [EstamaClient.get_guidance_status]
    split
    · exact ⟨_, _, rfl⟩
    · rw [h, except_bind_error]
      exact ⟨_, _, rfl⟩
  · intro net st e h
    simp only [EstamaClient.get_schedule]
    split
    · exact ⟨_, _, rfl⟩
    · rw [h, except_bind_error]
      exact ⟨_, _, rfl⟩
  · intro net st e h
    simp only [EstamaClient.get_reservations]
    split
    · exact ⟨_, _, rfl⟩
    · rw [h, except_bind_error]
      exact ⟨_, _, rfl⟩
  · intro net st e h
    simp only [EstamaClient.get_news_list]
    split
    · exact ⟨_, rfl⟩
    · rw [h, except_bind_error]
      exact ⟨_, rfl⟩
  · intro net st e h
    simp only [EstamaClient.click_appeal]
    split
    · exact ⟨_, rfl⟩
    · rw [h, except_bind_error]
      exact ⟨_, rfl⟩
  · intro net st e h
    simp [EstamaClient.login, EstamaClient.get_csrf_token, h]

/-- Counterexample to C3 as stated: the cast-list operation suffers an
internal fault, a raised transport exception on the cast page fetch, yet
returns the plain empty list, a value that carries no error field. -/
theorem c3_counterexample :
    CaskanClient.get_cast_list c3net ⟨true⟩ = Except.ok ([], ⟨true⟩) ∧
    c3net.castPage = Except.error "requests.exceptions.ConnectionError" ∧
    hasErrorField (pyOfCastList []) = false := by
  exact ⟨by decide, rfl, rfl⟩

/-- Witness for C3: with every page fetch of a concrete network raising,
the dict operations return the error shape, the monthly aggregation the
error dict, the list and map operations empty values and the appeal
false, by the amended theorem at that network. -/
theorem c3_witness :
    (∃ msg st', CaskanClient.get_home_info c3wnetA ⟨true⟩ = Except.ok (.error msg, st')) ∧
    (∃ msg st', CaskanClient.get_monthly_shift c3wnetA ⟨true⟩ 2026 2 = (.err msg, st')) ∧
    (∃ st', CaskanClient.get_room_map c3wnetA ⟨true⟩ = ([], st')) ∧
    (∃ st', CaskanClient.get_cast_list c3wnetA ⟨true⟩ = Except.ok ([], st')) ∧
    (∃ msg st', EstamaClient.get_dashboard c3wnetB ⟨true, ""⟩ = Except.ok (.error msg, st')) ∧
    (∃ st', EstamaClient.click_appeal c3wnetB ⟨true, ""⟩ = Except.ok (false, st')) := by
  obtain ⟨-, -, -, -, -, -, -, -, -, -, h11, -, -, h14, h15, h16, -, h18, -, -, -, -,
    h23, -⟩ := c3_no_exception_amended
  exact ⟨h11 c3wnetA ⟨true⟩ "netfail" rfl, h14 c3wnetA ⟨true⟩ 2026 2 "netfail" rfl,
    h16 c3wnetA ⟨true⟩ "netfail" rfl, h15 c3wnetA ⟨true⟩ "netfail" rfl,
    h18 c3wnetB ⟨true, ""⟩ "netfail" rfl, h23 c3wnetB ⟨true, ""⟩ "netfail" rfl⟩

/-- C5 (amended): a transport exception or a non-200 status at step one
terminates the login attempt as false with step two never issued; a
transport exception at step two, or a post-password final URL still
containing the login path, terminates the attempt as false; the status
code of step two is not inspected; and neither step is issued more than
once within one call. -/
theorem c5_login_steps_amended :
    (∀ (net : CaskanNet) (st : CasSt) (e : PyExc), net.step1 = .error e →
        CaskanClient.login net st = (false, st, [.step1])) ∧
    (∀ (net : CaskanNet) (st : CasSt) (r1 : Resp), net.step1 = .ok r1 → r1.status ≠ 200 →
        CaskanClient.login net st = (false, st, [.step1])) ∧
    (∀ (net : CaskanNet) (st : CasSt) (r1 : Resp) (e : PyExc),
        net.step1 = .ok r1 → r1.status = 200 → net.step2 = .error e →
        CaskanClient.login net st = (false, st, [.step1, .step2])) ∧
    (∀ (net : CaskanNet) (st : CasSt) (r1 r2 : Resp),
        net.step1 = .ok r1 → r1.status = 200 → net.step2 = .ok r2 →
        pyIn "/login" r2.url = true →
        CaskanClient.login net st = (false, st, [.step1, .step2])) ∧
    (∀ (net : CaskanNet) (st : CasSt),
        (CaskanClient.login net st).2.2.count .step1 ≤ 1 ∧
        (CaskanClient.login net st).2.2.count .step2 ≤ 1) := by
  refine ⟨?_, ?_, ?_, ?_, ?_⟩
  · intro net st e h1
    simp [CaskanClient.login, h1]
  · intro net st r1 h1 hs
    simp [CaskanClient.login, h1, hs]
  · intro net st r1 e h1 hs h2
    simp [CaskanClient.login, h1, hs, h2]
  · intro net st r1 r2 h1 hs h2 hurl
    simp [CaskanClient.login, h1, hs, h2, hurl]
  · intro net st
    unfold CaskanClient.login
    split
    · show List.count ReqTag.step1 [ReqTag.step1] ≤ 1 ∧ List.count ReqTag.step2 [ReqTag.step1] ≤ 1
      decide
    · split
      · show List.count ReqTag.step1 [ReqTag.step1] ≤ 1 ∧ List.count ReqTag.step2 [ReqTag.step1] ≤ 1
        decide
      · split
        · show List.count ReqTag.step1 [ReqTag.step1, ReqTag.step2] ≤ 1 ∧
            List.count ReqTag.step2 [ReqTag.step1, ReqTag.step2] ≤ 1
          decide
        · split <;>
          · show List.count ReqTag.step1 [ReqTag.step1, ReqTag.step2] ≤ 1 ∧
              List.count ReqTag.step2 [ReqTag.step1, ReqTag.step2] ≤ 1
            decide

/-- Counterexample to C5 as stated: a 500 response to the password step
whose final URL lacks the login path makes login return true, so a
non-200 response to step two does not fail the attempt. -/
theorem c5_counterexample :
    c5net.step2 = Except.ok ⟨500, "https://my.caskan.jp/maintenance", ""⟩ ∧
    (500 : Nat) ≠ 200 ∧
    (CaskanClient.login c5net ⟨false⟩).1 = true := by
  exact ⟨rfl, by decide, by decide⟩

/-- Witness for C5: a concrete 503 at step one fails the attempt with
only step one issued. -/
theorem c5_witness :
    CaskanClient.login c5wnet ⟨false⟩ = (false, ⟨false⟩, [.step1]) := by
  exact c5_login_steps_amended.2.1 c5wnet ⟨false⟩ ⟨503, "https://my.caskan.jp/login", ""⟩
    rfl (by decide)

/-- C6: a login page response lacking the hidden CSRF input yields the
empty token, and the login call then fails without issuing the AJAX login
POST. -/
theorem c6_csrf_missing (net : EstamaNet) (st : ESt) (page : CsrfPage)
    (hp : net.loginPage = Except.ok page) (hmiss : page.csrf_footer = none) :
    EstamaClient.get_csrf_token net.loginPage = "" ∧
    (EstamaClient.login net st).1 = false ∧
    ReqTag.loginPost ∉ (EstamaClient.login net st).2.2 := by
  have htok : EstamaClient.get_csrf_token net.loginPage = "" := by
    rw [hp]
    simp [EstamaClient.get_csrf_token, hmiss]
  refine ⟨htok, ?_, ?_⟩ <;> simp [EstamaClient.login, htok]

/-- Witness for C6 at a concrete CSRF-less login page. -/
theorem c6_witness :
    EstamaClient.get_csrf_token c6net.loginPage = "" ∧
    (EstamaClient.login c6net ⟨false, "old"⟩).1 = false ∧
    ReqTag.loginPost ∉ (EstamaClient.login c6net ⟨false, "old"⟩).2.2 :=
  c6_csrf_missing c6net ⟨false, "old"⟩ ⟨none⟩ rfl rfl

/-- C10: with the login flag already set, a probe exception during the
expiry check is swallowed by both clients: the check returns true with
the state untouched and no login request issued, so the following domain
request proceeds on the possibly dead session. -/
theorem c10_probe_exception_swallowed (netA : CaskanNet) (stA : CasSt)
    (netB : EstamaNet) (stB : ESt) (eA eB : PyExc)
    (hA1 : stA.logged_in = true) (hA2 : netA.probe = Except.error eA)
    (hB1 : stB.logged_in = true) (hB2 : netB.probe = Except.error eB) :
    CaskanClient.ensure_login netA stA = (true, stA, [.probeA]) ∧
    EstamaClient.ensure_login netB stB = (true, stB, [.probeB]) := by
  constructor
  · simp [CaskanClient.ensure_login, hA1, hA2]
  · simp [EstamaClient.ensure_login, hB1, hB2]

/-- Witness for C10 at a concrete timed-out probe on both clients. -/
theorem c10_witness :
    CaskanClient.ensure_login c10netA ⟨true⟩ = (true, ⟨true⟩, [.probeA]) ∧
    EstamaClient.ensure_login c10netB ⟨true, "t"⟩ = (true, ⟨true, "t"⟩, [.probeB]) :=
  c10_probe_exception_swallowed c10netA ⟨true⟩ c10netB ⟨true, "t"⟩
    "requests.exceptions.Timeout" "requests.exceptions.Timeout" rfl rfl rfl rfl

theorem except_bind_ok {α β : Type} (a : α) (f : α → Except PyExc β) :
    (Except.ok a >>= f) = f a := rfl

/-- C8: whenever get_reservations succeeds on either client, the count
field is the total number of nonblank parsed table rows, while the
returned list is the first twenty of those rows. -/
theorem c8_reservation_count
    (netA : CaskanNet) (stA : CasSt) (tablesA : List (List (List String)))
    (rA : ReservationsOk) (stA' : CasSt)
    (netB : EstamaNet) (stB : ESt) (tablesB : List (List (List String)))
    (rB : ReservationsOk) (stB' : ESt)
    (hta : netA.resvPage = Except.ok tablesA)
    (ha : CaskanClient.get_reservations netA stA = Except.ok (.ok rA, stA'))
    (htb : netB.resvPage = Except.ok tablesB)
    (hb : EstamaClient.get_reservations netB stB = Except.ok (.ok rB, stB')) :
    (rA.count = (reservation_rows tablesA).length ∧
      rA.reservations = (reservation_rows tablesA).take 20 ∧
      rA.reservations.length ≤ 20) ∧
    (rB.count = (reservation_rows tablesB).length ∧
      rB.reservations = (reservation_rows tablesB).take 20 ∧
      rB.reservations.length ≤ 20) := by
  constructor
  · simp only [CaskanClient.get_reservations] at ha
    split at ha
    · injection ha with ha
      injection ha with ha
      exact absurd ha (by simp)
    · rw [hta, except_bind_ok] at ha
      simp only [pyTry] at ha
      injection ha with ha
      injection ha with ha
      injection ha with ha
      subst ha
      exact ⟨rfl, rfl, by simp [List.length_take]⟩
  · simp only [EstamaClient.get_reservations] at hb
    split at hb
    · injection hb with hb
      injection hb with hb
      exact absurd hb (by simp)
    · rw [htb, except_bind_ok] at hb
      simp only [pyTry] at hb
      injection hb with hb
      injection hb with hb
      injection hb with hb
      subst hb
      exact ⟨rfl, rfl, by simp [List.length_take]⟩

/-- Witness for C8: a concrete 25-row reservation page on Client A and a
5-row page on Client B. -/
theorem c8_witness :
    (c8resA.count = (reservation_rows c8tablesA).length ∧
      c8resA.reservations.length ≤ 20) ∧
    c8resB.count = (reservation_rows c8tablesB).length := by
  have h := c8_reservation_count c8netA ⟨true⟩ c8tablesA c8resA ⟨true⟩
    c8netB ⟨true, ""⟩ c8tablesB c8resB ⟨true, ""⟩ rfl (by decide) rfl (by decide)
  exact ⟨⟨h.1.1, h.1.2.2⟩, h.2.1⟩

theorem foldl_preserve {α β : Type} (P : β → Prop) (f : List β → α → List β)
    (hf : ∀ acc a, (∀ x ∈ acc, P x) → ∀ x ∈ f acc a, P x) :
    ∀ (l : List α) (acc : List β), (∀ x ∈ acc, P x) → ∀ x ∈ l.foldl f acc, P x := by
  intro l
  induction l with
  | nil => intro acc h; exact h
  | cons a rest ih => intro acc h; exact ih _ (hf acc a h)

theorem dropWhile_length_le (p : Char → Bool) (l : List Char) :
    (l.dropWhile p).length ≤ l.length := by
  induction l with
  | nil => simp
  | cons c rest ih =>
    rw [List.dropWhile_cons]
    split
    · exact le_trans ih (Nat.le_succ _)
    · simp

theorem pyStrip_length_le (s : List Char) : (pyStrip s).length ≤ s.length := by
  unfold pyStrip
  rw [List.length_reverse]
  calc ((s.dropWhile Char.isWhitespace).reverse.dropWhile Char.isWhitespace).length
      ≤ (s.dropWhile Char.isWhitespace).reverse.length := dropWhile_length_le _ _
    _ = (s.dropWhile Char.isWhitespace).length := List.length_reverse _
    _ ≤ s.length := dropWhile_length_le _ _

theorem removeAllFuel_length_le (pat : List Char) :
    ∀ f s, (EstamaClient.removeAllFuel pat f s).length ≤ s.length := by
  intro f
  induction f with
  | zero => intro s; exact Nat.le_refl _
  | succ f ih =>
    intro s
    cases s with
    | nil => simp [EstamaClient.removeAllFuel]
    | cons c rest =>
      simp only [EstamaClient.removeAllFuel]
      split
      · calc (EstamaClient.removeAllFuel pat f ((c :: rest).drop pat.length)).length
            ≤ ((c :: rest).drop pat.length).length := ih _
          _ ≤ (c :: rest).length := by simp [List.length_drop]
      · simpa using ih rest

theorem removeAll_length_le (s pat : List Char) :
    (EstamaClient.removeAll s pat).length ≤ s.length :=
  removeAllFuel_length_le pat s.length s

theorem news_table_items_title_le (tables : List (List (List (List Char)))) :
    ∀ it ∈ EstamaClient.news_table_items tables, it.title.length ≤ 50 := by
  intro it hit
  unfold EstamaClient.news_table_items at hit
  refine foldl_preserve (fun x => x.title.length ≤ 50) _ ?_ tables [] (by simp) it hit
  intro acc rows hacc
  refine foldl_preserve (fun x => x.title.length ≤ 50) _ ?_ _ acc hacc
  intro acc2 cells hacc2 x hx
  split at hx
  · rcases List.mem_append.mp hx with hx | hx
    · exact hacc2 x hx
    · rcases List.mem_singleton.mp hx with rfl
      simp [List.length_take]
  · exact hacc2 x hx

theorem news_fallback_items_title_le (text_lines : List (List Char)) :
    ∀ it ∈ EstamaClient.news_fallback_items text_lines, it.title.length ≤ 99 := by
  intro it hit
  unfold EstamaClient.news_fallback_items at hit
  refine foldl_preserve (fun x => x.title.length ≤ 99) _ ?_ text_lines [] (by simp) it hit
  intro acc line0 hacc x hx
  simp only [] at hx
  split at hx
  · rename_i hlen
    split at hx
    · rename_i pat hpat
      rcases List.mem_append.mp hx with hx | hx
      · exact hacc x hx
      · rcases List.mem_singleton.mp hx with rfl
        have h1 := pyStrip_length_le (EstamaClient.removeAll (pyStrip line0) pat)
        have h2 := removeAll_length_le (pyStrip line0) pat
        have h3 : (pyStrip line0).length < 100 := by
          simp only [Bool.and_eq_true, decide_eq_true_eq] at hlen
          exact hlen.2
        simp only []
        omega
    · exact hacc x hx
  · exact hacc x hx

/-- C9 (amended): get_news_list returns at most ten items in every case;
titles produced by the table branch are at most 50 characters, and when
the table branch yields anything the whole result obeys that bound, but
fallback titles are only bounded by the under-100-character line filter,
at 99 characters. -/
theorem c9_news_caps_amended (net : EstamaNet) (st : ESt)
    (items : List NewsItem) (st' : ESt)
    (h : EstamaClient.get_news_list net st = Except.ok (items, st')) :
    items.length ≤ 10 ∧
    (∀ it ∈ items, it.title.length ≤ 99) ∧
    (∀ page, net.newsPage = Except.ok page →
      EstamaClient.news_table_items page.tables ≠ [] →
      ∀ it ∈ items, it.title.length ≤ 50) := by
  simp only [EstamaClient.get_news_list] at h
  split at h
  · injection h with h
    injection h with h
    subst h
    exact ⟨by simp, by simp, by simp⟩
  · cases hnp : net.newsPage with
    | error e =>
      rw [hnp] at h
      simp only [pyTry] at h
      injection h with h
      injection h with h
      subst h
      exact ⟨by simp, by simp, fun page hp => absurd hp (by simp)⟩
    | ok page =>
      rw [hnp, except_bind_ok] at h
      simp only [pyTry] at h
      injection h with h
      injection h with h
      subst h
      refine ⟨by simp [List.length_take], ?_, ?_⟩
      · intro it hit
        have hit' := List.mem_of_mem_take hit
        split at hit'
        · exact news_fallback_items_title_le page.text_lines it hit'
        · exact le_trans (news_table_items_title_le page.tables it hit') (by omega)
      · intro page' hp hne it hit
        have hpp : page' = page := by
          injection hp with hp
          exact hp.symm
        subst hpp
        have hit' := List.mem_of_mem_take hit
        rw [if_neg (by simp [List.isEmpty_iff, hne])] at hit'
        exact news_table_items_title_le _ it hit'

/-- Witness for C9: a concrete one-table news page whose sixty-character
title is sliced to fifty. -/
theorem c9_witness :
    c9witems.length ≤ 10 ∧ (∀ it ∈ c9witems, it.title.length ≤ 99) ∧
    (∀ it ∈ c9witems, it.title.length ≤ 50) := by
  have h : EstamaClient.get_news_list c9wnet ⟨true, ""⟩ = Except.ok (c9witems, ⟨true, ""⟩) := by
    decide
  have hc := c9_news_caps_amended c9wnet ⟨true, ""⟩ c9witems ⟨true, ""⟩ h
  exact ⟨hc.1, hc.2.1, hc.2.2 c9wpage rfl (by decide)⟩

/-- Counterexample to C9 as stated: a table-less news page with one
99-character line carrying a date produces, through the free-text
fallback branch, an item whose title is 91 characters long, above the
50-character bound the claim asserts. -/
theorem c9_counterexample :
    EstamaClient.get_news_list c9net ⟨true, ""⟩ =
      Except.ok ([⟨List.replicate 91 'a', "2024-1-1".data⟩], ⟨true, ""⟩) ∧
    (List.replicate 91 'a').length = 91 ∧ ¬(91 ≤ 50) := by
  exact ⟨by decide, by simp, by omega⟩

theorem truncatePy_le (limit : Nat) (marker t : List Char) (h : t.length ≤ limit) :
    truncatePy limit marker t = t := by
  simp [truncatePy, h]

theorem truncatePy_gt (limit : Nat) (marker t : List Char) (h : limit < t.length) :
    (truncatePy limit marker t).length ≤ limit + marker.length ∧
    marker <:+ truncatePy limit marker t := by
  unfold truncatePy
  rw [if_neg (by omega)]
  constructor
  · simp only [List.length_append, List.length_take]
    omega
  · exact List.suffix_append _ _

/-- C4 (amended): each truncation site keeps text at or under its own
threshold unmodified and otherwise cuts it to at most threshold plus
marker length, ending with its marker; but the schedule operation of
Client B caps at 3000 characters with the three-dot marker, while the bot
caps Client A schedule text at 3500 with the continuation marker and
row-based listings at 4000 with the three-dot marker. -/
theorem c4_truncation_amended :
    (∀ t : List Char, (t.length ≤ 3000 → EstamaClient.schedule_cap t = t) ∧
      (3000 < t.length → (EstamaClient.schedule_cap t).length ≤ 3000 + 4 ∧
        ('\n' :: '.' :: '.' :: '.' :: []) <:+ EstamaClient.schedule_cap t)) ∧
    (∀ t : List Char, (t.length ≤ 3500 → bot_caskan_schedule_cap t = t) ∧
      (3500 < t.length → (bot_caskan_schedule_cap t).length ≤ 3500 + botScheduleMarker.length ∧
        botScheduleMarker <:+ bot_caskan_schedule_cap t)) ∧
    (∀ t : List Char, (t.length ≤ 4000 → bot_rows_cap t = t) ∧
      (4000 < t.length → (bot_rows_cap t).length ≤ 4000 + 4 ∧
        ('\n' :: '.' :: '.' :: '.' :: []) <:+ bot_rows_cap t)) := by
  refine ⟨fun t => ⟨?_, ?_⟩, fun t => ⟨?_, ?_⟩, fun t => ⟨?_, ?_⟩⟩ <;>
    intro h <;> first
      | exact truncatePy_le _ _ _ h
      | exact truncatePy_gt _ _ _ h

/-- Witness for C4: the two-character text passes the bot schedule cap
unmodified and the 3501-character text is capped with the marker. -/
theorem c4_witness :
    EstamaClient.schedule_cap c4small = c4small ∧
    (bot_caskan_schedule_cap c4big).length ≤ 3500 + botScheduleMarker.length ∧
    botScheduleMarker <:+ bot_caskan_schedule_cap c4big := by
  have hbig : 3500 < c4big.length := by
    unfold c4big
    rw [List.length_replicate]
    omega
  refine ⟨(c4_truncation_amended.1 c4small).1 (by decide), ?_, ?_⟩
  · exact ((c4_truncation_amended.2.1 c4big).2 hbig).1
  · exact ((c4_truncation_amended.2.1 c4big).2 hbig).2

theorem splitOnChar_no_sep (sep : Char) (l : List Char) (h : sep ∉ l) :
    splitOnChar sep l = [l] := by
  induction l with
  | nil => rfl
  | cons c rest ih =>
    have hc : ¬(c = sep) := fun hc => h (hc ▸ List.mem_cons_self c rest)
    have hr : sep ∉ rest := fun hr => h (List.mem_cons_of_mem c hr)
    simp [splitOnChar, hc, ih hr]

theorem dropWhile_eq_self_of (p : Char → Bool) (l : List Char)
    (h : ∀ c ∈ l, p c = false) : l.dropWhile p = l := by
  cases l with
  | nil => rfl
  | cons c rest =>
    rw [List.dropWhile_cons, h c (List.mem_cons_self c rest)]
    simp

theorem pyStrip_eq_self (s : List Char) (h : ∀ c ∈ s, Char.isWhitespace c = false) :
    pyStrip s = s := by
  unfold pyStrip
  rw [dropWhile_eq_self_of _ _ h,
    dropWhile_eq_self_of _ _ (fun c hc => h c (List.mem_reverse.mp hc)),
    List.reverse_reverse]

theorem c4line_no_nl : '\n' ∉ c4line := by
  intro h
  unfold c4line at h
  simp only [List.mem_cons, List.mem_replicate] at h
  rcases h with h | h | h | h | h | ⟨-, h⟩ <;> exact absurd h (by decide)

theorem c4line_no_ws : ∀ c ∈ c4line, Char.isWhitespace c = false := by
  intro c hc
  unfold c4line at hc
  simp only [List.mem_cons, List.mem_replicate] at hc
  rcases hc with rfl | rfl | rfl | rfl | rfl | ⟨-, rfl⟩ <;> decide

theorem estDateMatch_c4line : EstamaClient.estDateMatch c4line = true := by
  unfold EstamaClient.estDateMatch c4line
  simp +decide [List.span_eq_take_drop, List.takeWhile_cons, List.dropWhile_cons,
    List.isEmpty_cons]

theorem schedule_fold_c4 :
    EstamaClient.schedule_fold [c4line] = ['\n' :: '📅' :: ' ' :: c4line] := by
  unfold EstamaClient.schedule_fold
  simp only [List.foldl_cons, List.foldl_nil,
    pyStrip_eq_self c4line c4line_no_ws]
  rw [if_neg (by simp [c4line]), if_pos estDateMatch_c4line]
  rfl

theorem schedule_text_c4 :
    EstamaClient.schedule_text c4text = '\n' :: '📅' :: ' ' :: c4line := by
  unfold EstamaClient.schedule_text c4text
  rw [splitOnChar_no_sep '\n' c4line c4line_no_nl, schedule_fold_c4,
    if_pos (by decide)]
  simp only [List.intercalate, List.intersperse_singleton, List.flatten_cons,
    List.flatten_nil, List.append_nil]

theorem schedule_text_c4_length :
    (EstamaClient.schedule_text c4text).length = 3099 := by
  rw [schedule_text_c4]
  simp only [List.length_cons, c4line, List.length_replicate]

/-- Counterexample to C4 as stated: the schedule operation of Client B,
run against a page producing a 3099-character schedule text, modifies the
text although its length is at or under the 3500-character threshold the
claim names, because the operation truncates at 3000. -/
theorem c4_counterexample :
    EstamaClient.get_schedule c4net ⟨true, ""⟩ =
      Except.ok (.ok (EstamaClient.schedule_cap (EstamaClient.schedule_text c4text)),
        ⟨true, ""⟩) ∧
    (EstamaClient.schedule_text c4text).length = 3099 ∧
    (EstamaClient.schedule_text c4text).length ≤ 3500 ∧
    EstamaClient.schedule_cap (EstamaClient.schedule_text c4text)
      ≠ EstamaClient.schedule_text c4text := by
  have hlen := schedule_text_c4_length
  have hcap : (EstamaClient.schedule_cap (EstamaClient.schedule_text c4text)).length
      = 3004 := by
    unfold EstamaClient.schedule_cap truncatePy
    rw [if_neg (by omega)]
    simp only [List.length_append, List.length_take, List.length_cons, List.length_nil]
    omega
  refine ⟨rfl, hlen, by omega, ?_⟩
  intro heq
  rw [heq] at hcap
  omega
